import Mathlib

/-
  Verification of the fantasy-basketball core of this repository:
  the draft credit formula (src/draft.py), the Monte Carlo matchup
  simulator (src/simulation.py) and the roster recommendation search
  (src/recommendation.py), shallowly embedded over exact rationals.

  Python dicts keyed by category names are modelled as association
  lists; `None` values are modelled with `Option`.  Randomness is
  factored out: the simulator is a deterministic function of the list
  of raw normal draws.  Floating point arithmetic is modelled by exact
  rational arithmetic; Python `round` (bankers rounding) is modelled
  exactly on rationals.
-/

/-- Round to the nearest integer with ties to the even integer: the
semantics of the Python built-in `round(x)` on exact values. -/
def roundHalfEven (q : ℚ) : ℤ :=
  if q - ⌊q⌋ < 1/2 then ⌊q⌋
  else if 1/2 < q - ⌊q⌋ then ⌊q⌋ + 1
  else if ⌊q⌋ % 2 = 0 then ⌊q⌋ else ⌊q⌋ + 1

/-- Python `round(x, 1)`: round to one decimal place, ties to even. -/
def round1 (q : ℚ) : ℚ := (roundHalfEven (q * 10) : ℚ) / 10

theorem abs_roundHalfEven_sub_le (q : ℚ) : |(roundHalfEven q : ℚ) - q| ≤ 1/2 := by
  have h0 : (0:ℚ) ≤ q - ⌊q⌋ := by
    have := Int.floor_le q; linarith
  have h1 : q - (⌊q⌋ : ℚ) < 1 := by
    have := Int.lt_floor_add_one q; linarith
  unfold roundHalfEven
  split_ifs with hlt hgt hev
  · rw [abs_sub_comm, abs_of_nonneg (by linarith)]; linarith
  · rw [abs_of_nonneg (by push_cast; linarith)]
    push_cast; linarith
  · have heq : q - (⌊q⌋ : ℚ) = 1/2 := le_antisymm (not_lt.mp hgt) (not_lt.mp hlt)
    rw [abs_sub_comm, abs_of_nonneg (by linarith)]; linarith
  · have heq : q - (⌊q⌋ : ℚ) = 1/2 := le_antisymm (not_lt.mp hgt) (not_lt.mp hlt)
    rw [abs_of_nonneg (by push_cast; linarith)]
    push_cast; linarith

theorem abs_round1_sub_le (q : ℚ) : |round1 q - q| ≤ 1/20 := by
  have h := abs_roundHalfEven_sub_le (q * 10)
  unfold round1
  have : (roundHalfEven (q * 10) : ℚ) / 10 - q = ((roundHalfEven (q * 10) : ℚ) - q * 10) / 10 := by
    ring
  rw [this, abs_div]
  rw [show |(10:ℚ)| = 10 by norm_num]
  linarith [h]

theorem round1_intCast (n : ℤ) : round1 (n : ℚ) = n := by
  unfold round1 roundHalfEven
  have hfl : ⌊(n : ℚ) * 10⌋ = n * 10 := by
    rw [show ((n : ℚ) * 10) = ((n * 10 : ℤ) : ℚ) by push_cast; ring, Int.floor_intCast]
  rw [hfl]
  have : ((n * 10 : ℤ) : ℚ) = (n : ℚ) * 10 := by push_cast; ring
  rw [if_pos (by rw [this]; norm_num)]
  rw [this]; ring

/-- Embeds `dict.get(key, default)` for a numeric-valued Python dict, modelled as an
association list. -/
def dictGetD (s : List (String × ℚ)) (k : String) (d : ℚ) : ℚ := (s.lookup k).getD d

/-- A numeric stats mapping (Python dict from category names to numbers). -/
abbrev NumStats := List (String × ℚ)

/- ----------------------------------------------------------------
   DraftAssistant.calculate_player_credit (src/draft.py)
   ---------------------------------------------------------------- -/

/-- The weighted composite 9-category score built inside
`DraftAssistant.calculate_player_credit` (src/draft.py): counting stats with
Yahoo weights, shooting impacts relative to league-average baselines (added
only when the stored percentage is strictly positive), minus turnovers. -/
def compositeScore (stats : NumStats) : ℚ :=
  let pts := dictGetD stats "points" 0
  let reb := dictGetD stats "rebounds" 0
  let ast := dictGetD stats "assists" 0
  let stl := dictGetD stats "steals" 0
  let blk := dictGetD stats "blocks" 0
  let fg3m := dictGetD stats "three_pointers_made" 0
  let tov := dictGetD stats "turnovers" 0
  let fg_pct := dictGetD stats "fg_percentage" 0
  let ft_pct := dictGetD stats "ft_percentage" 0
  let base := pts * 1.0 + reb * 1.2 + ast * 1.5 + stl * 3.0 + blk * 3.0 + fg3m * 0.5
  let s1 := if 0 < fg_pct then base + (fg_pct - 0.46) * 50 else base
  let s2 := if 0 < ft_pct then s1 + (ft_pct - 0.78) * 30 else s1
  s2 - tov * 1.0

/-- The cascading if/elif tier mapping of `calculate_player_credit`
(src/draft.py): composite score to auction credit, before the minutes
adjustment and final clamping. -/
def tierCredit (score : ℚ) : ℚ :=
  if 55 ≤ score then 50 + min 20 ((score - 55) * 1.5)
  else if 45 ≤ score then 35 + (score - 45) * 1.4
  else if 35 ≤ score then 25 + (score - 35) * 1.0
  else if 25 ≤ score then 15 + (score - 25) * 1.0
  else if 15 ≤ score then 8 + (score - 15) * 0.7
  else if 5 ≤ score then 3 + (score - 5) * 0.4
  else max 1 (score * 0.4)

/-- The minutes adjustment of `calculate_player_credit` (src/draft.py):
below 28 minutes per game the credit is scaled by `0.6 + (minutes/28)*0.4`;
at 28 or more minutes it is left unchanged. -/
def minutesFactor (minutes : ℚ) : ℚ :=
  if minutes < 28 then 0.6 + minutes / 28 * 0.4 else 1

/-- The credit value of `calculate_player_credit` before the final
round-and-clamp step. -/
def preClampCredit (stats : NumStats) (minutes : ℚ) : ℚ :=
  tierCredit (compositeScore stats) * minutesFactor minutes

/-- Embeds `DraftAssistant.calculate_player_credit` (src/draft.py): empty stats or
fewer than 10 minutes per game give the floor credit 1; otherwise the tier
credit of the composite score is minutes-adjusted, rounded to the nearest
integer (Python `round`) and clamped to [1, 70]. -/
def calculate_player_credit (stats : NumStats) (minutes : ℚ) : ℤ :=
  if stats = [] then 1
  else if minutes < 10 then 1
  else max 1 (min 70 (roundHalfEven (preClampCredit stats minutes)))

/-- The six-band piecewise-linear tier function as the specification words it:
elite band capped at 70 via a `min`, the other bands affine in the excess over
the band threshold. -/
def specTierCredit (score : ℚ) : ℚ :=
  if 55 ≤ score then min 70 (50 + (score - 55) * 1.5)
  else if 45 ≤ score then 35 + (score - 45) * 1.4
  else if 35 ≤ score then 25 + (score - 35) * 1.0
  else if 25 ≤ score then 15 + (score - 25) * 1.0
  else if 15 ≤ score then 8 + (score - 15) * 0.7
  else if 5 ≤ score then 3 + (score - 5) * 0.4
  else max 1 (score * 0.4)

theorem tierCredit_eq_specTierCredit (score : ℚ) : tierCredit score = specTierCredit score := by
  unfold tierCredit specTierCredit
  split_ifs with h
  · rcases le_total (20:ℚ) ((score - 55) * 1.5) with h3 | h3
    · rw [min_eq_left h3, min_eq_left (by linarith)]; norm_num
    · rw [min_eq_right h3, min_eq_right (by linarith)]
  all_goals rfl

/-- C4: for every stats mapping and every minutes value (including empty
stats and zero, negative or extreme numeric values), `calculate_player_credit`
returns an integer lying in the closed interval [1, 70]. -/
theorem c4_credit_always_in_bounds (stats : NumStats) (minutes : ℚ) :
    1 ≤ calculate_player_credit stats minutes ∧ calculate_player_credit stats minutes ≤ 70 := by
  unfold calculate_player_credit
  split_ifs
  · exact ⟨le_refl 1, by norm_num⟩
  · exact ⟨le_refl 1, by norm_num⟩
  · refine ⟨le_max_left _ _, max_le (by norm_num) (min_le_left _ _)⟩

/-- C5: for a player with a non-empty stats mapping and at least 10 minutes
per game, the credit before final clamping is exactly the six-band
piecewise-linear tier function of the composite score (elite band capped at
70) multiplied by the minutes-dampening factor `0.6 + (minutes/28)*0.4` when
minutes < 28 (and by 1 otherwise); a player averaging under 10 minutes per
game receives credit exactly 1, bypassing the tier function entirely. -/
theorem c5_tier_function_and_minutes_floor (stats : NumStats) (minutes : ℚ) :
    (stats ≠ [] → 10 ≤ minutes →
      preClampCredit stats minutes
          = specTierCredit (compositeScore stats) *
              (if minutes < 28 then 0.6 + minutes / 28 * 0.4 else 1)
        ∧ calculate_player_credit stats minutes
          = max 1 (min 70 (roundHalfEven
              (specTierCredit (compositeScore stats) *
                (if minutes < 28 then 0.6 + minutes / 28 * 0.4 else 1))))) ∧
    (minutes < 10 → calculate_player_credit stats minutes = 1) := by
  constructor
  · intro hne hmin
    have hpre : preClampCredit stats minutes
        = specTierCredit (compositeScore stats) *
            (if minutes < 28 then 0.6 + minutes / 28 * 0.4 else 1) := by
      unfold preClampCredit minutesFactor
      rw [tierCredit_eq_specTierCredit]
    refine ⟨hpre, ?_⟩
    unfold calculate_player_credit
    rw [if_neg hne, if_neg (not_lt.mpr hmin), hpre]
  · intro hlt
    unfold calculate_player_credit
    split_ifs
    · rfl
    · rfl

/-- Witness for C5 at a concrete player: 30 points on 30 minutes per game. -/
theorem c5_witness :
    preClampCredit [("points", 30)] 30
        = specTierCredit (compositeScore [("points", 30)]) *
            (if (30:ℚ) < 28 then 0.6 + 30 / 28 * 0.4 else 1)
      ∧ calculate_player_credit [("points", 5)] 5 = 1 := by
  refine ⟨((c5_tier_function_and_minutes_floor [("points", 30)] 30).1
      (by decide) (by norm_num)).1, ?_⟩
  exact (c5_tier_function_and_minutes_floor [("points", 5)] 5).2 (by norm_num)

/- ----------------------------------------------------------------
   MatchupSimulator (src/simulation.py): data model
   ---------------------------------------------------------------- -/

/-- A player stats mapping as fed to the simulator: a Python dict whose
values may be `None` (modelled by `Option.none`).  A player record without a
stats mapping is modelled by the empty list. -/
abbrev PStats := List (String × Option ℚ)

/-- The `safe_get` helper of `_get_sample_player_projections`
(src/simulation.py): a missing key or a `None` value falls back to the
default. -/
def safeGet (s : PStats) (k : String) (d : ℚ) : ℚ :=
  match s.lookup k with
  | some (some v) => v
  | _ => d

/-- The 9 head-to-head fantasy categories, in the iteration order of the
`team_projections` dict of src/simulation.py. -/
inductive Cat where
  | points | rebounds | assists | steals | blocks
  | threes | fgPct | ftPct | turnovers
deriving DecidableEq

/-- The iteration order of `my_projections.keys()` in `_run_simulations`. -/
def allCats : List Cat :=
  [.points, .rebounds, .assists, .steals, .blocks, .threes, .fgPct, .ftPct, .turnovers]

/-- The projection dict returned by `_get_sample_player_projections`
(src/simulation.py): the 9 category values plus estimated field-goal and
free-throw attempts. -/
structure Proj where
  points : ℚ
  rebounds : ℚ
  assists : ℚ
  steals : ℚ
  blocks : ℚ
  threes : ℚ
  fgPct : ℚ
  ftPct : ℚ
  turnovers : ℚ
  fgAtt : ℚ
  ftAtt : ℚ
deriving DecidableEq

/-- Embeds `MatchupSimulator._get_sample_player_projections` (src/simulation.py):
a player with an empty stats mapping receives a fixed fallback stat line
(10 points, 4 rebounds, 3 assists, 0.8 steals, 0.5 blocks, 1 three,
45% FG on 8 attempts, 75% FT on 3 attempts, 1.5 turnovers); otherwise each
projection is read from the stats mapping through `safe_get` with the
defaults of the source. -/
def samplePlayerProjections (stats : PStats) : Proj :=
  if stats = [] then
    { points := 10.0, rebounds := 4.0, assists := 3.0, steals := 0.8, blocks := 0.5
      threes := 1.0, fgPct := 0.45, ftPct := 0.75, turnovers := 1.5
      fgAtt := 8.0, ftAtt := 3.0 }
  else
    { points := safeGet stats "points" 0
      rebounds := safeGet stats "rebounds" 0
      assists := safeGet stats "assists" 0
      steals := safeGet stats "steals" 0
      blocks := safeGet stats "blocks" 0
      threes := safeGet stats "three_pointers_made" 0
      fgPct := safeGet stats "fg_percentage" 0.45
      ftPct := safeGet stats "ft_percentage" 0.75
      turnovers := safeGet stats "turnovers" 0
      fgAtt := safeGet stats "field_goals_attempted" 10.0
      ftAtt := safeGet stats "free_throws_attempted" 3.0 }

/-- The team-level projection dict built by `_get_team_projections`. -/
structure TeamProj where
  points : ℚ
  rebounds : ℚ
  assists : ℚ
  steals : ℚ
  blocks : ℚ
  threes : ℚ
  fgPct : ℚ
  ftPct : ℚ
  turnovers : ℚ
deriving DecidableEq

def TeamProj.get (p : TeamProj) : Cat → ℚ
  | .points => p.points
  | .rebounds => p.rebounds
  | .assists => p.assists
  | .steals => p.steals
  | .blocks => p.blocks
  | .threes => p.threes
  | .fgPct => p.fgPct
  | .ftPct => p.ftPct
  | .turnovers => p.turnovers

/-- Loop state of `_get_team_projections`: running sums of the counting
stats and of the weighted shooting makes/attempts. -/
structure TeamAcc where
  points : ℚ
  rebounds : ℚ
  assists : ℚ
  steals : ℚ
  blocks : ℚ
  threes : ℚ
  turnovers : ℚ
  fgMakes : ℚ
  fgAtts : ℚ
  ftMakes : ℚ
  ftAtts : ℚ
deriving DecidableEq

/-- One iteration of the roster loop of `_get_team_projections`
(src/simulation.py): add the player counting stats to the team sums, and
accumulate `rate × attempts` makes and attempts for each shooting split whose
rate and attempts are both strictly positive. -/
def addPlayerToTeam (acc : TeamAcc) (p : Proj) : TeamAcc :=
  let acc1 : TeamAcc :=
    { acc with
      points := acc.points + p.points
      rebounds := acc.rebounds + p.rebounds
      assists := acc.assists + p.assists
      steals := acc.steals + p.steals
      blocks := acc.blocks + p.blocks
      threes := acc.threes + p.threes
      turnovers := acc.turnovers + p.turnovers }
  let acc2 : TeamAcc :=
    if 0 < p.fgPct ∧ 0 < p.fgAtt then
      { acc1 with fgMakes := acc1.fgMakes + p.fgPct * p.fgAtt, fgAtts := acc1.fgAtts + p.fgAtt }
    else acc1
  if 0 < p.ftPct ∧ 0 < p.ftAtt then
    { acc2 with ftMakes := acc2.ftMakes + p.ftPct * p.ftAtt, ftAtts := acc2.ftAtts + p.ftAtt }
  else acc2

/-- Embeds `MatchupSimulator._get_team_projections` (src/simulation.py): sum the
counting stats of every player sample projections and derive the team
shooting percentages as accumulated makes over accumulated attempts, leaving
the initial 0 when no attempts were accumulated. -/
def getTeamProjections (roster : List PStats) : TeamProj :=
  let acc := roster.foldl (fun a s => addPlayerToTeam a (samplePlayerProjections s))
    ⟨0, 0, 0, 0, 0, 0, 0, 0, 0, 0, 0⟩
  { points := acc.points
    rebounds := acc.rebounds
    assists := acc.assists
    steals := acc.steals
    blocks := acc.blocks
    threes := acc.threes
    fgPct := if 0 < acc.fgAtts then acc.fgMakes / acc.fgAtts else 0
    ftPct := if 0 < acc.ftAtts then acc.ftMakes / acc.ftAtts else 0
    turnovers := acc.turnovers }

/- ----------------------------------------------------------------
   MatchupSimulator: one simulated trial
   ---------------------------------------------------------------- -/

/-- Embeds `MatchupSimulator._simulate_team_performance` (src/simulation.py) with
the raw normal draws factored out: a category projected at 0 is reported as
0 without consulting the draw; otherwise the drawn value is clamped, to
[0.2, 1] for the shooting percentages and to nonnegative values for the
counting categories. -/
def simulateTeamPerformance (proj : TeamProj) (draw : Cat → ℚ) : Cat → ℚ :=
  fun c =>
    if proj.get c = 0 then 0
    else if c = .fgPct ∨ c = .ftPct then max 0.2 (min 1.0 (draw c))
    else max 0 (draw c)

inductive Outcome where
  | win | loss | tie
deriving DecidableEq

/-- One simulated trial: the sampled stat line of each team. -/
abbrev Trial := (Cat → ℚ) × (Cat → ℚ)

/-- The category comparison of `_run_simulations` (src/simulation.py):
for turnovers the lower sampled value wins, for every other category the
higher sampled value wins, and exact equality is a tie. -/
def catOutcome (c : Cat) (myValue oppValue : ℚ) : Outcome :=
  if c = .turnovers then
    if myValue < oppValue then .win
    else if oppValue < myValue then .loss
    else .tie
  else
    if oppValue < myValue then .win
    else if myValue < oppValue then .loss
    else .tie

def trialOutcome (t : Trial) (c : Cat) : Outcome := catOutcome c (t.1 c) (t.2 c)

/-- Per-trial loop state: the trial own category-won/lost counters and the
global per-category win/loss/tie counters. -/
structure TrialState where
  won : ℕ
  lost : ℕ
  wins : Cat → ℕ
  losses : Cat → ℕ
  ties : Cat → ℕ

def bumpAt (f : Cat → ℕ) (c : Cat) : Cat → ℕ := fun x => if x = c then f x + 1 else f x

/-- The three comparison branches of the category loop of
`_run_simulations`: a win bumps the category win counter and the trial
won count, a loss the loss counter and lost count, a tie only the tie
counter. -/
def applyOutcome (o : Outcome) (c : Cat) (st : TrialState) : TrialState :=
  match o with
  | .win => { st with won := st.won + 1, wins := bumpAt st.wins c }
  | .loss => { st with lost := st.lost + 1, losses := bumpAt st.losses c }
  | .tie => { st with ties := bumpAt st.ties c }

/-- The inner category loop of `_run_simulations`: for each category in
iteration order, increment exactly one of the per-category win/loss/tie
counters and, on a win or loss, the trial own category count. -/
def runCats (t : Trial) : List Cat → TrialState → TrialState
  | [], st => st
  | c :: cs, st => runCats t cs (applyOutcome (trialOutcome t c) c st)

/-- Cross-trial loop state of `_run_simulations`: the accumulated win credit
`my_wins` and the per-category counters. -/
structure SimState where
  myWins : ℚ
  wins : Cat → ℕ
  losses : Cat → ℕ
  ties : Cat → ℕ

/-- One iteration of the simulation loop of `_run_simulations`: run the
category comparisons, then credit the trial — 1 when strictly more categories
were won than lost, nothing when strictly fewer, and 0.5 on an exact
category-count tie. -/
def runTrial (st : SimState) (t : Trial) : SimState :=
  let ts := runCats t allCats ⟨0, 0, st.wins, st.losses, st.ties⟩
  let st' : SimState := ⟨st.myWins, ts.wins, ts.losses, ts.ties⟩
  if ts.lost < ts.won then { st' with myWins := st'.myWins + 1 }
  else if ts.won < ts.lost then st'
  else { st' with myWins := st'.myWins + 0.5 }

def runTrials (trials : List Trial) : SimState :=
  trials.foldl runTrial ⟨0, fun _ => 0, fun _ => 0, fun _ => 0⟩

/-- Number of categories the first team wins in a trial. -/
def categoriesWon (t : Trial) : ℕ := allCats.countP (fun c => trialOutcome t c == Outcome.win)

/-- Number of categories the first team loses in a trial. -/
def categoriesLost (t : Trial) : ℕ := allCats.countP (fun c => trialOutcome t c == Outcome.loss)

/-- The win credit a single trial contributes to `my_wins`: 1 for a trial won
on strictly more categories, 0 for a trial lost, 0.5 for an exact
category-count tie. -/
def trialCredit (t : Trial) : ℚ :=
  if categoriesLost t < categoriesWon t then 1
  else if categoriesWon t < categoriesLost t then 0
  else 0.5

/-- The per-category entry of the `category_breakdown` dict. -/
structure CatBreakdown where
  winPct : ℚ
  lossPct : ℚ
  tiePct : ℚ
  strength : String
deriving DecidableEq

/-- The strength label of `_run_simulations`: computed from the unrounded
win percentage. -/
def strengthLabel (winPct : ℚ) : String :=
  if 60 < winPct then "strong" else if winPct < 40 then "weak" else "even"

/-- The aggregate result of `_run_simulations`. -/
structure SimResult where
  winProbability : ℚ
  breakdown : Cat → CatBreakdown
  expectedWon : ℕ
  expectedLost : ℕ
  expectedTied : ℕ

/-- Embeds `MatchupSimulator._run_simulations` (src/simulation.py) as a function of
the list of simulated trials: accumulate the per-trial credits and category
counters, report the overall win probability and the per-category
percentages rounded to one decimal, label each category from its unrounded
win percentage, and count the expected categories won/lost/tied from the
rounded win percentages. -/
def runSimulations (trials : List Trial) : SimResult :=
  let n : ℚ := trials.length
  let st := runTrials trials
  let breakdown : Cat → CatBreakdown := fun c =>
    let w := (st.wins c : ℚ) / n * 100
    let l := (st.losses c : ℚ) / n * 100
    let ti := (st.ties c : ℚ) / n * 100
    { winPct := round1 w, lossPct := round1 l, tiePct := round1 ti
      strength := strengthLabel w }
  { winProbability := round1 (st.myWins / n * 100)
    breakdown := breakdown
    expectedWon := allCats.countP (fun c => decide (50 < (breakdown c).winPct))
    expectedLost := allCats.countP (fun c => decide ((breakdown c).winPct < 50))
    expectedTied := allCats.countP (fun c => decide ((breakdown c).winPct = 50)) }

/-- Embeds `MatchupSimulator.simulate_matchup` (src/simulation.py) with the per-trial
raw normal draws supplied as an explicit list: project both rosters, simulate
each trial from the corresponding pair of draws, and aggregate. -/
def simulate_matchup (myRoster oppRoster : List PStats)
    (draws : List ((Cat → ℚ) × (Cat → ℚ))) : SimResult :=
  let myProj := getTeamProjections myRoster
  let oppProj := getTeamProjections oppRoster
  runSimulations (draws.map (fun d =>
    (simulateTeamPerformance myProj d.1, simulateTeamPerformance oppProj d.2)))


/- ----------------------------------------------------------------
   Closed forms for the simulation loops
   ---------------------------------------------------------------- -/

theorem applyOutcome_won (o : Outcome) (c : Cat) (st : TrialState) :
    (applyOutcome o c st).won = st.won + (if o == Outcome.win then 1 else 0) := by
  cases o <;> rfl

theorem applyOutcome_lost (o : Outcome) (c : Cat) (st : TrialState) :
    (applyOutcome o c st).lost = st.lost + (if o == Outcome.loss then 1 else 0) := by
  cases o <;> rfl

theorem applyOutcome_wins (o : Outcome) (c : Cat) (st : TrialState) (x : Cat) :
    (applyOutcome o c st).wins x
      = st.wins x + (if x == c && (o == Outcome.win) then 1 else 0) := by
  cases o <;> simp [applyOutcome, bumpAt, beq_iff_eq] <;> split_ifs <;> simp_all

theorem applyOutcome_losses (o : Outcome) (c : Cat) (st : TrialState) (x : Cat) :
    (applyOutcome o c st).losses x
      = st.losses x + (if x == c && (o == Outcome.loss) then 1 else 0) := by
  cases o <;> simp [applyOutcome, bumpAt, beq_iff_eq] <;> split_ifs <;> simp_all

theorem applyOutcome_ties (o : Outcome) (c : Cat) (st : TrialState) (x : Cat) :
    (applyOutcome o c st).ties x
      = st.ties x + (if x == c && (o == Outcome.tie) then 1 else 0) := by
  cases o <;> simp [applyOutcome, bumpAt, beq_iff_eq] <;> split_ifs <;> simp_all

theorem runCats_won (t : Trial) (cs : List Cat) (st : TrialState) :
    (runCats t cs st).won = st.won + cs.countP (fun c => trialOutcome t c == Outcome.win) := by
  induction cs generalizing st with
  | nil => simp [runCats]
  | cons c cs ih =>
    rw [runCats, ih, applyOutcome_won, List.countP_cons]
    split_ifs <;> omega

theorem runCats_lost (t : Trial) (cs : List Cat) (st : TrialState) :
    (runCats t cs st).lost = st.lost + cs.countP (fun c => trialOutcome t c == Outcome.loss) := by
  induction cs generalizing st with
  | nil => simp [runCats]
  | cons c cs ih =>
    rw [runCats, ih, applyOutcome_lost, List.countP_cons]
    split_ifs <;> omega

theorem runCats_wins (t : Trial) (cs : List Cat) (st : TrialState) (x : Cat) :
    (runCats t cs st).wins x
      = st.wins x + cs.countP (fun c => x == c && (trialOutcome t c == Outcome.win)) := by
  induction cs generalizing st with
  | nil => simp [runCats]
  | cons c cs ih =>
    rw [runCats, ih, applyOutcome_wins, List.countP_cons]
    split_ifs <;> omega

theorem runCats_losses (t : Trial) (cs : List Cat) (st : TrialState) (x : Cat) :
    (runCats t cs st).losses x
      = st.losses x + cs.countP (fun c => x == c && (trialOutcome t c == Outcome.loss)) := by
  induction cs generalizing st with
  | nil => simp [runCats]
  | cons c cs ih =>
    rw [runCats, ih, applyOutcome_losses, List.countP_cons]
    split_ifs <;> omega

theorem runCats_ties (t : Trial) (cs : List Cat) (st : TrialState) (x : Cat) :
    (runCats t cs st).ties x
      = st.ties x + cs.countP (fun c => x == c && (trialOutcome t c == Outcome.tie)) := by
  induction cs generalizing st with
  | nil => simp [runCats]
  | cons c cs ih =>
    rw [runCats, ih, applyOutcome_ties, List.countP_cons]
    split_ifs <;> omega

theorem countP_allCats_single (x : Cat) (p : Cat → Bool) :
    allCats.countP (fun c => x == c && p c) = if p x then 1 else 0 := by
  cases x <;> simp [allCats, List.countP_cons] <;> split_ifs <;> simp_all

theorem runTrial_fields (st : SimState) (t : Trial) :
    (runTrial st t).wins = (runCats t allCats ⟨0, 0, st.wins, st.losses, st.ties⟩).wins
    ∧ (runTrial st t).losses = (runCats t allCats ⟨0, 0, st.wins, st.losses, st.ties⟩).losses
    ∧ (runTrial st t).ties = (runCats t allCats ⟨0, 0, st.wins, st.losses, st.ties⟩).ties := by
  simp only [runTrial]
  split_ifs <;> exact ⟨rfl, rfl, rfl⟩

theorem runCats_allCats_won (t : Trial) (w l ti : Cat → ℕ) :
    (runCats t allCats ⟨0, 0, w, l, ti⟩).won = categoriesWon t := by
  rw [runCats_won]; simp [categoriesWon]

theorem runCats_allCats_lost (t : Trial) (w l ti : Cat → ℕ) :
    (runCats t allCats ⟨0, 0, w, l, ti⟩).lost = categoriesLost t := by
  rw [runCats_lost]; simp [categoriesLost]

theorem runTrial_myWins (st : SimState) (t : Trial) :
    (runTrial st t).myWins = st.myWins + trialCredit t := by
  simp only [runTrial]
  rw [runCats_allCats_won, runCats_allCats_lost]
  unfold trialCredit
  split_ifs <;> norm_num

theorem runTrial_wins (st : SimState) (t : Trial) (c : Cat) :
    (runTrial st t).wins c
      = st.wins c + (if trialOutcome t c == Outcome.win then 1 else 0) := by
  rw [congrFun (runTrial_fields st t).1 c, runCats_wins, countP_allCats_single]

theorem runTrial_losses (st : SimState) (t : Trial) (c : Cat) :
    (runTrial st t).losses c
      = st.losses c + (if trialOutcome t c == Outcome.loss then 1 else 0) := by
  rw [congrFun (runTrial_fields st t).2.1 c, runCats_losses, countP_allCats_single]

theorem runTrial_ties (st : SimState) (t : Trial) (c : Cat) :
    (runTrial st t).ties c
      = st.ties c + (if trialOutcome t c == Outcome.tie then 1 else 0) := by
  rw [congrFun (runTrial_fields st t).2.2 c, runCats_ties, countP_allCats_single]

theorem foldl_runTrial_myWins (trials : List Trial) (st : SimState) :
    (trials.foldl runTrial st).myWins = st.myWins + (trials.map trialCredit).sum := by
  induction trials generalizing st with
  | nil => simp
  | cons t ts ih => rw [List.foldl_cons, ih, runTrial_myWins]; simp; ring

theorem runTrials_myWins (trials : List Trial) :
    (runTrials trials).myWins = (trials.map trialCredit).sum := by
  rw [runTrials, foldl_runTrial_myWins]; simp

theorem foldl_runTrial_wins (trials : List Trial) (st : SimState) (c : Cat) :
    (trials.foldl runTrial st).wins c
      = st.wins c + trials.countP (fun t => trialOutcome t c == Outcome.win) := by
  induction trials generalizing st with
  | nil => simp
  | cons t ts ih => rw [List.foldl_cons, ih, runTrial_wins, List.countP_cons]; split_ifs <;> omega

theorem foldl_runTrial_losses (trials : List Trial) (st : SimState) (c : Cat) :
    (trials.foldl runTrial st).losses c
      = st.losses c + trials.countP (fun t => trialOutcome t c == Outcome.loss) := by
  induction trials generalizing st with
  | nil => simp
  | cons t ts ih => rw [List.foldl_cons, ih, runTrial_losses, List.countP_cons]; split_ifs <;> omega

theorem foldl_runTrial_ties (trials : List Trial) (st : SimState) (c : Cat) :
    (trials.foldl runTrial st).ties c
      = st.ties c + trials.countP (fun t => trialOutcome t c == Outcome.tie) := by
  induction trials generalizing st with
  | nil => simp
  | cons t ts ih => rw [List.foldl_cons, ih, runTrial_ties, List.countP_cons]; split_ifs <;> omega

theorem runTrials_wins (trials : List Trial) (c : Cat) :
    (runTrials trials).wins c = trials.countP (fun t => trialOutcome t c == Outcome.win) := by
  rw [runTrials, foldl_runTrial_wins]; simp

theorem runTrials_losses (trials : List Trial) (c : Cat) :
    (runTrials trials).losses c = trials.countP (fun t => trialOutcome t c == Outcome.loss) := by
  rw [runTrials, foldl_runTrial_losses]; simp

theorem runTrials_ties (trials : List Trial) (c : Cat) :
    (runTrials trials).ties c = trials.countP (fun t => trialOutcome t c == Outcome.tie) := by
  rw [runTrials, foldl_runTrial_ties]; simp

theorem runSimulations_winProbability (trials : List Trial) :
    (runSimulations trials).winProbability
      = round1 ((runTrials trials).myWins / (trials.length : ℚ) * 100) := rfl

theorem runSimulations_breakdown (trials : List Trial) (c : Cat) :
    (runSimulations trials).breakdown c
      = { winPct := round1 (((runTrials trials).wins c : ℚ) / (trials.length : ℚ) * 100)
          lossPct := round1 (((runTrials trials).losses c : ℚ) / (trials.length : ℚ) * 100)
          tiePct := round1 (((runTrials trials).ties c : ℚ) / (trials.length : ℚ) * 100)
          strength := strengthLabel (((runTrials trials).wins c : ℚ) / (trials.length : ℚ) * 100) } := rfl

/- ----------------------------------------------------------------
   C1 and C2: per-category outcomes and trial aggregation
   ---------------------------------------------------------------- -/

theorem catOutcome_turnovers_char (a b : ℚ) :
    (catOutcome .turnovers a b = .win ↔ a < b)
  ∧ (catOutcome .turnovers a b = .loss ↔ b < a)
  ∧ (catOutcome .turnovers a b = .tie ↔ a = b) := by
  unfold catOutcome
  rw [if_pos rfl]
  split_ifs with h1 h2
  · exact ⟨by simp [h1], by simp [lt_asymm h1], by simp [ne_of_lt h1]⟩
  · exact ⟨by simp [h1], by simp [h2], by simp [(ne_of_lt h2).symm]⟩
  · have heq : a = b := le_antisymm (not_lt.mp h2) (not_lt.mp h1)
    exact ⟨by simp [h1], by simp [h2], by simp [heq]⟩

theorem catOutcome_other_char (c : Cat) (hc : c ≠ .turnovers) (a b : ℚ) :
    (catOutcome c a b = .win ↔ b < a)
  ∧ (catOutcome c a b = .loss ↔ a < b)
  ∧ (catOutcome c a b = .tie ↔ a = b) := by
  unfold catOutcome
  rw [if_neg hc]
  split_ifs with h1 h2
  · exact ⟨by simp [h1], by simp [lt_asymm h1], by simp [(ne_of_lt h1).symm]⟩
  · exact ⟨by simp [h1], by simp [h2], by simp [ne_of_lt h2]⟩
  · have heq : a = b := le_antisymm (not_lt.mp h1) (not_lt.mp h2)
    exact ⟨by simp [h1], by simp [h2], by simp [heq]⟩

theorem countP_outcome_partition (trials : List Trial) (c : Cat) :
    trials.countP (fun t => trialOutcome t c == Outcome.win)
      + trials.countP (fun t => trialOutcome t c == Outcome.loss)
      + trials.countP (fun t => trialOutcome t c == Outcome.tie) = trials.length := by
  induction trials with
  | nil => simp
  | cons t ts ih =>
    simp only [List.countP_cons, List.length_cons]
    rcases h : trialOutcome t c with _ | _ | _ <;> simp [h] <;> omega

/-- C1: in every simulated trial and for every category exactly one of the
win/loss/tie counters is incremented — the turnovers category is decided by
the lower sampled value, every other category by the higher sampled value,
and exact equality is a tie — so the three per-category counters always sum
to the number of trials and the reported (rounded) win, loss and tie
percentages of each category sum to 100 up to rounding error (at most 0.2). -/
theorem c1_category_partition_and_percentages :
    (∀ myValue oppValue : ℚ,
        (catOutcome .turnovers myValue oppValue = .win ↔ myValue < oppValue)
      ∧ (catOutcome .turnovers myValue oppValue = .loss ↔ oppValue < myValue)
      ∧ (catOutcome .turnovers myValue oppValue = .tie ↔ myValue = oppValue))
  ∧ (∀ c : Cat, c ≠ .turnovers → ∀ myValue oppValue : ℚ,
        (catOutcome c myValue oppValue = .win ↔ oppValue < myValue)
      ∧ (catOutcome c myValue oppValue = .loss ↔ myValue < oppValue)
      ∧ (catOutcome c myValue oppValue = .tie ↔ myValue = oppValue))
  ∧ (∀ (trials : List Trial) (c : Cat),
        (runTrials trials).wins c + (runTrials trials).losses c + (runTrials trials).ties c
          = trials.length)
  ∧ (∀ (trials : List Trial) (c : Cat), trials ≠ [] →
        |((runSimulations trials).breakdown c).winPct
          + ((runSimulations trials).breakdown c).lossPct
          + ((runSimulations trials).breakdown c).tiePct - 100| ≤ 1/5) := by
  refine ⟨catOutcome_turnovers_char, catOutcome_other_char, ?_, ?_⟩
  · intro trials c
    rw [runTrials_wins, runTrials_losses, runTrials_ties]
    exact countP_outcome_partition trials c
  · intro trials c hne
    have hlen : trials.length ≠ 0 := fun h => hne (List.length_eq_zero.mp h)
    have hn : ((trials.length : ℚ)) ≠ 0 := Nat.cast_ne_zero.mpr hlen
    rw [runSimulations_breakdown]
    have hpart : ((runTrials trials).wins c : ℚ) + ((runTrials trials).losses c : ℚ)
        + ((runTrials trials).ties c : ℚ) = (trials.length : ℚ) := by
      rw [runTrials_wins, runTrials_losses, runTrials_ties]
      exact_mod_cast countP_outcome_partition trials c
    have hsum : ((runTrials trials).wins c : ℚ) / (trials.length : ℚ) * 100
        + ((runTrials trials).losses c : ℚ) / (trials.length : ℚ) * 100
        + ((runTrials trials).ties c : ℚ) / (trials.length : ℚ) * 100 = 100 := by
      field_simp
      linarith [hpart]
    have hw := abs_round1_sub_le (((runTrials trials).wins c : ℚ) / (trials.length : ℚ) * 100)
    have hl := abs_round1_sub_le (((runTrials trials).losses c : ℚ) / (trials.length : ℚ) * 100)
    have hti := abs_round1_sub_le (((runTrials trials).ties c : ℚ) / (trials.length : ℚ) * 100)
    rw [abs_le] at hw hl hti ⊢
    constructor <;> [linarith [hw.1, hl.1, hti.1, hsum]; linarith [hw.2, hl.2, hti.2, hsum]]

/-- A fixed trial used by the witnesses: the first team samples 1 in every
category, the second samples 0. -/
def constTrial : Trial := (fun _ => 1, fun _ => 0)

/-- Witness for C1: on the fixed trial, the points category with samples
1 vs 0 is a win, and the reported percentages of a one-trial simulation sum
to 100 within 0.2. -/
theorem c1_witness :
    (catOutcome Cat.points 1 0 = .win ↔ (0:ℚ) < 1)
  ∧ |((runSimulations [constTrial]).breakdown Cat.points).winPct
      + ((runSimulations [constTrial]).breakdown Cat.points).lossPct
      + ((runSimulations [constTrial]).breakdown Cat.points).tiePct - 100| ≤ 1/5 :=
  ⟨(c1_category_partition_and_percentages.2.1 Cat.points (by decide) 1 0).1,
   c1_category_partition_and_percentages.2.2.2 [constTrial] Cat.points (by simp)⟩

/-- C2: for every pair of sampled team stat lines, the trial winner is the
team that won strictly more categories — a trial with strictly more
categories won contributes 1 to the win tally, strictly fewer contributes 0,
and an exact category-count tie contributes 0.5 — and for every trial list
the reported overall win probability is the sum of the per-trial win credits
divided by the trial count, times 100, rounded to one decimal place. -/
theorem c2_trial_winner_and_win_probability :
    (∀ t : Trial,
        (categoriesLost t < categoriesWon t → trialCredit t = 1)
      ∧ (categoriesWon t < categoriesLost t → trialCredit t = 0)
      ∧ (categoriesWon t = categoriesLost t → trialCredit t = 1/2))
  ∧ (∀ trials : List Trial,
        (runSimulations trials).winProbability
          = round1 ((trials.map trialCredit).sum / (trials.length : ℚ) * 100)) := by
  constructor
  · intro t
    unfold trialCredit
    refine ⟨fun h => ?_, fun h => ?_, fun h => ?_⟩
    · rw [if_pos h]
    · rw [if_neg (by omega), if_pos h]
    · rw [if_neg (by omega), if_neg (by omega)]
      norm_num
  · intro trials
    rw [runSimulations_winProbability, runTrials_myWins]

/-- Witness for C2: the fixed trial wins 8 categories and loses 1 (the
turnovers category, where its sample is higher), so it is credited a full
win; and the one-trial simulation reports the rounded credit average. -/
theorem c2_witness :
    trialCredit constTrial = 1
  ∧ (runSimulations [constTrial]).winProbability
      = round1 ((([constTrial] : List Trial).map trialCredit).sum
          / (([constTrial] : List Trial).length : ℚ) * 100) :=
  ⟨(c2_trial_winner_and_win_probability.1 constTrial).1 (by decide),
   c2_trial_winner_and_win_probability.2 [constTrial]⟩

/- ----------------------------------------------------------------
   C3: team shooting percentages are weighted makes over attempts
   ---------------------------------------------------------------- -/

/-- Sample projections of the roster players whose field-goal rate and
attempts are both strictly positive: exactly the players that enter the
field-goal accumulation of `_get_team_projections`. -/
def fgQualifying (roster : List PStats) : List Proj :=
  (roster.map samplePlayerProjections).filter (fun p => decide (0 < p.fgPct ∧ 0 < p.fgAtt))

/-- Sample projections of the roster players whose free-throw rate and
attempts are both strictly positive. -/
def ftQualifying (roster : List PStats) : List Proj :=
  (roster.map samplePlayerProjections).filter (fun p => decide (0 < p.ftPct ∧ 0 < p.ftAtt))

/-- Weighted field-goal makes of a roster: the sum of rate × attempts over
the qualifying players. -/
def teamFgMakes (roster : List PStats) : ℚ :=
  ((fgQualifying roster).map (fun p => p.fgPct * p.fgAtt)).sum

/-- Summed field-goal attempts of a roster over the qualifying players. -/
def teamFgAtts (roster : List PStats) : ℚ :=
  ((fgQualifying roster).map (fun p => p.fgAtt)).sum

/-- Weighted free-throw makes of a roster over the qualifying players. -/
def teamFtMakes (roster : List PStats) : ℚ :=
  ((ftQualifying roster).map (fun p => p.ftPct * p.ftAtt)).sum

/-- Summed free-throw attempts of a roster over the qualifying players. -/
def teamFtAtts (roster : List PStats) : ℚ :=
  ((ftQualifying roster).map (fun p => p.ftAtt)).sum

theorem addPlayerToTeam_shooting (acc : TeamAcc) (p : Proj) :
    (addPlayerToTeam acc p).fgMakes
        = acc.fgMakes + (if 0 < p.fgPct ∧ 0 < p.fgAtt then p.fgPct * p.fgAtt else 0)
  ∧ (addPlayerToTeam acc p).fgAtts
        = acc.fgAtts + (if 0 < p.fgPct ∧ 0 < p.fgAtt then p.fgAtt else 0)
  ∧ (addPlayerToTeam acc p).ftMakes
        = acc.ftMakes + (if 0 < p.ftPct ∧ 0 < p.ftAtt then p.ftPct * p.ftAtt else 0)
  ∧ (addPlayerToTeam acc p).ftAtts
        = acc.ftAtts + (if 0 < p.ftPct ∧ 0 < p.ftAtt then p.ftAtt else 0) := by
  simp only [addPlayerToTeam]
  split_ifs <;> simp

theorem foldl_addPlayer_shooting (roster : List PStats) (acc : TeamAcc) :
    (roster.foldl (fun a s => addPlayerToTeam a (samplePlayerProjections s)) acc).fgMakes
        = acc.fgMakes + teamFgMakes roster
  ∧ (roster.foldl (fun a s => addPlayerToTeam a (samplePlayerProjections s)) acc).fgAtts
        = acc.fgAtts + teamFgAtts roster
  ∧ (roster.foldl (fun a s => addPlayerToTeam a (samplePlayerProjections s)) acc).ftMakes
        = acc.ftMakes + teamFtMakes roster
  ∧ (roster.foldl (fun a s => addPlayerToTeam a (samplePlayerProjections s)) acc).ftAtts
        = acc.ftAtts + teamFtAtts roster := by
  induction roster generalizing acc with
  | nil => simp [teamFgMakes, teamFgAtts, teamFtMakes, teamFtAtts, fgQualifying, ftQualifying]
  | cons s ss ih =>
    obtain ⟨ih1, ih2, ih3, ih4⟩ := ih (addPlayerToTeam acc (samplePlayerProjections s))
    obtain ⟨h1, h2, h3, h4⟩ := addPlayerToTeam_shooting acc (samplePlayerProjections s)
    refine ⟨?_, ?_, ?_, ?_⟩ <;>
      simp only [List.foldl_cons, ih1, ih2, ih3, ih4, h1, h2, h3, h4,
        teamFgMakes, teamFgAtts, teamFtMakes, teamFtAtts, fgQualifying, ftQualifying,
        List.map_cons, List.filter_cons] <;>
      by_cases hfg : 0 < (samplePlayerProjections s).fgPct ∧ 0 < (samplePlayerProjections s).fgAtt <;>
      by_cases hft : 0 < (samplePlayerProjections s).ftPct ∧ 0 < (samplePlayerProjections s).ftAtt <;>
      simp [hfg, hft] <;> ring

/-- A 100% shooter on 1 field-goal attempt. -/
def shooterOnOne : PStats := [("fg_percentage", some 1), ("field_goals_attempted", some 1)]

/-- A 45% shooter on 20 field-goal attempts. -/
def shooterOnTwenty : PStats := [("fg_percentage", some 0.45), ("field_goals_attempted", some 20)]

/-- C3: for every roster, the team FG% and FT% computed by
`_get_team_projections` equal the sum of per-player rate × attempts divided
by the summed attempts over players with strictly positive rate and
attempts, and equal 0 when the summed attempts are 0; on the concrete
two-player roster of a 100%-on-1-attempt shooter and a 45%-on-20-attempts
shooter the team FG% is 10/21 (≈ 47.6%), which differs from the arithmetic
mean (72.5%) of the two percentages. -/
theorem c3_weighted_percentage_aggregation (roster : List PStats) :
    ((getTeamProjections roster).fgPct
        = if 0 < teamFgAtts roster then teamFgMakes roster / teamFgAtts roster else 0)
  ∧ ((getTeamProjections roster).ftPct
        = if 0 < teamFtAtts roster then teamFtMakes roster / teamFtAtts roster else 0)
  ∧ (getTeamProjections [shooterOnOne, shooterOnTwenty]).fgPct = 10/21
  ∧ (10/21 : ℚ) ≠ ((1 : ℚ) + 0.45) / 2 := by
  obtain ⟨h1, h2, h3, h4⟩ := foldl_addPlayer_shooting roster ⟨0, 0, 0, 0, 0, 0, 0, 0, 0, 0, 0⟩
  refine ⟨?_, ?_, ?_, by norm_num⟩
  · show (if 0 < _ then _ / _ else 0) = _
    rw [h1, h2]
    norm_num
  · show (if 0 < _ then _ / _ else 0) = _
    rw [h3, h4]
    norm_num
  · obtain ⟨g1, g2, _, _⟩ :=
      foldl_addPlayer_shooting [shooterOnOne, shooterOnTwenty] ⟨0, 0, 0, 0, 0, 0, 0, 0, 0, 0, 0⟩
    have e1 : samplePlayerProjections shooterOnOne
        = { points := 0, rebounds := 0, assists := 0, steals := 0, blocks := 0, threes := 0
            fgPct := 1, ftPct := 0.75, turnovers := 0, fgAtt := 1, ftAtt := 3.0 } := rfl
    have e2 : samplePlayerProjections shooterOnTwenty
        = { points := 0, rebounds := 0, assists := 0, steals := 0, blocks := 0, threes := 0
            fgPct := 0.45, ftPct := 0.75, turnovers := 0, fgAtt := 20, ftAtt := 3.0 } := rfl
    have hm : teamFgMakes [shooterOnOne, shooterOnTwenty] = 10 := by
      unfold teamFgMakes fgQualifying
      rw [List.map_cons, List.map_cons, List.map_nil, e1, e2]
      norm_num [List.filter]
    have ha : teamFgAtts [shooterOnOne, shooterOnTwenty] = 21 := by
      unfold teamFgAtts fgQualifying
      rw [List.map_cons, List.map_cons, List.map_nil, e1, e2]
      norm_num [List.filter]
    show (if 0 < _ then _ / _ else 0) = _
    rw [g1, g2]
    show (if 0 < 0 + teamFgAtts [shooterOnOne, shooterOnTwenty]
        then (0 + teamFgMakes [shooterOnOne, shooterOnTwenty])
          / (0 + teamFgAtts [shooterOnOne, shooterOnTwenty]) else 0) = 10/21
    rw [hm, ha]
    norm_num

/- ----------------------------------------------------------------
   C10: two empty rosters give a fully deterministic 50/50 report
   ---------------------------------------------------------------- -/

theorem getTeamProjections_nil :
    getTeamProjections ([] : List PStats) = ⟨0, 0, 0, 0, 0, 0, 0, 0, 0⟩ := by
  simp [getTeamProjections]

theorem simulateTeamPerformance_zeroProj (draw : Cat → ℚ) (c : Cat) :
    simulateTeamPerformance ⟨0, 0, 0, 0, 0, 0, 0, 0, 0⟩ draw c = 0 := by
  cases c <;> simp [simulateTeamPerformance, TeamProj.get]

theorem trialOutcome_allZero (f g : Cat → ℚ) (hf : ∀ x, f x = 0) (hg : ∀ x, g x = 0)
    (c : Cat) : trialOutcome (f, g) c = .tie := by
  unfold trialOutcome catOutcome
  simp [hf, hg]

theorem runSimulations_expectedWon (trials : List Trial) :
    (runSimulations trials).expectedWon
      = allCats.countP (fun c => decide (50 < ((runSimulations trials).breakdown c).winPct)) := rfl

theorem runSimulations_expectedLost (trials : List Trial) :
    (runSimulations trials).expectedLost
      = allCats.countP (fun c => decide (((runSimulations trials).breakdown c).winPct < 50)) := rfl

theorem runSimulations_expectedTied (trials : List Trial) :
    (runSimulations trials).expectedTied
      = allCats.countP (fun c => decide (((runSimulations trials).breakdown c).winPct = 50)) := rfl

/-- C10: when both rosters are empty the simulation result does not depend
on the random draws or on the (positive) trial count: every category of
every trial ties, so the overall win probability is exactly 50.0, every
category reports 0% wins, 0% losses, 100% ties with strength label "weak",
and the expected category counts are 0 won, 9 lost, 0 tied. -/
theorem c10_empty_rosters_deterministic (draws : List ((Cat → ℚ) × (Cat → ℚ)))
    (hne : draws ≠ []) :
    (simulate_matchup [] [] draws).winProbability = 50
  ∧ (∀ c : Cat, (simulate_matchup [] [] draws).breakdown c
        = { winPct := 0, lossPct := 0, tiePct := 100, strength := "weak" })
  ∧ (simulate_matchup [] [] draws).expectedWon = 0
  ∧ (simulate_matchup [] [] draws).expectedLost = 9
  ∧ (simulate_matchup [] [] draws).expectedTied = 0 := by
  have hlen : draws.length ≠ 0 := fun h => hne (List.length_eq_zero.mp h)
  have hmatch : simulate_matchup [] [] draws
      = runSimulations (draws.map (fun d =>
          (simulateTeamPerformance (getTeamProjections []) d.1,
           simulateTeamPerformance (getTeamProjections []) d.2))) := rfl
  set trials := draws.map (fun d =>
    (simulateTeamPerformance (getTeamProjections []) d.1,
     simulateTeamPerformance (getTeamProjections []) d.2)) with htr
  have hlen2 : trials.length = draws.length := List.length_map _ _
  have hq : ((trials.length : ℚ)) ≠ 0 := by
    rw [hlen2]; exact_mod_cast hlen
  have houtcome : ∀ t ∈ trials, ∀ c, trialOutcome t c = .tie := by
    intro t ht c
    rw [htr] at ht
    obtain ⟨d, _, rfl⟩ := List.mem_map.mp ht
    refine trialOutcome_allZero _ _ (fun x => ?_) (fun x => ?_) c <;>
      rw [getTeamProjections_nil] <;> exact simulateTeamPerformance_zeroProj _ x
  have hwins : ∀ c, (runTrials trials).wins c = 0 := by
    intro c
    rw [runTrials_wins]
    refine List.countP_eq_zero.mpr (fun t ht => ?_)
    simp [houtcome t ht c]
  have hlosses : ∀ c, (runTrials trials).losses c = 0 := by
    intro c
    rw [runTrials_losses]
    refine List.countP_eq_zero.mpr (fun t ht => ?_)
    simp [houtcome t ht c]
  have hties : ∀ c, (runTrials trials).ties c = trials.length := by
    intro c
    rw [runTrials_ties]
    refine List.countP_eq_length.mpr (fun t ht => ?_)
    simp [houtcome t ht c]
  have hbreak : ∀ c, (runSimulations trials).breakdown c
      = { winPct := 0, lossPct := 0, tiePct := 100, strength := "weak" } := by
    intro c
    rw [runSimulations_breakdown, hwins, hlosses, hties]
    have hz : ((0 : ℕ) : ℚ) / (trials.length : ℚ) * 100 = 0 := by simp
    have hh : ((trials.length : ℚ)) / (trials.length : ℚ) * 100 = 100 := by
      field_simp
    rw [hz, hh]
    have h0 : round1 0 = 0 := by simpa using round1_intCast 0
    have h100 : round1 100 = 100 := by simpa using round1_intCast 100
    rw [h0, h100]
    have hs : strengthLabel 0 = "weak" := by norm_num [strengthLabel]
    rw [hs]
  have hcred : ∀ t ∈ trials, trialCredit t = 1/2 := by
    intro t ht
    have hw : categoriesWon t = 0 := by
      unfold categoriesWon
      refine List.countP_eq_zero.mpr (fun c _ => ?_)
      simp [houtcome t ht c]
    have hl : categoriesLost t = 0 := by
      unfold categoriesLost
      refine List.countP_eq_zero.mpr (fun c _ => ?_)
      simp [houtcome t ht c]
    unfold trialCredit
    rw [hw, hl]
    norm_num
  have hsum : (trials.map trialCredit).sum = (trials.length : ℚ) / 2 := by
    rw [List.map_congr_left hcred, List.map_const']
    rw [List.sum_replicate, nsmul_eq_mul]
    ring
  rw [hmatch]
  refine ⟨?_, hbreak, ?_, ?_, ?_⟩
  · rw [runSimulations_winProbability, runTrials_myWins, hsum]
    have : (trials.length : ℚ) / 2 / (trials.length : ℚ) * 100 = 50 := by
      field_simp
      ring
    rw [this]
    simpa using round1_intCast 50
  · rw [runSimulations_expectedWon]
    refine List.countP_eq_zero.mpr (fun c _ => ?_)
    rw [hbreak c]
    norm_num
  · rw [runSimulations_expectedLost]
    have : allCats.countP (fun c => decide (((runSimulations trials).breakdown c).winPct < 50))
        = allCats.countP (fun _ => true) := by
      refine List.countP_congr (fun c _ => ?_)
      rw [hbreak c]
      norm_num
    rw [this, List.countP_true]
    rfl
  · rw [runSimulations_expectedTied]
    refine List.countP_eq_zero.mpr (fun c _ => ?_)
    rw [hbreak c]
    norm_num

/-- Witness for C10 at a single concrete trial draw. -/
theorem c10_witness :
    (simulate_matchup [] [] [(fun _ => 0, fun _ => 0)]).winProbability = 50
  ∧ (simulate_matchup [] [] [(fun _ => 0, fun _ => 0)]).breakdown Cat.turnovers
      = { winPct := 0, lossPct := 0, tiePct := 100, strength := "weak" }
  ∧ (simulate_matchup [] [] [(fun _ => 0, fun _ => 0)]).expectedLost = 9 :=
  ⟨(c10_empty_rosters_deterministic [(fun _ => 0, fun _ => 0)] (by simp)).1,
   (c10_empty_rosters_deterministic [(fun _ => 0, fun _ => 0)] (by simp)).2.1 Cat.turnovers,
   (c10_empty_rosters_deterministic [(fun _ => 0, fun _ => 0)] (by simp)).2.2.2.1⟩

/- ----------------------------------------------------------------
   RecommendationEngine (src/recommendation.py): data model
   ---------------------------------------------------------------- -/

/-- A player record as consumed by the recommendation engine: name, position
tag and the numeric stats mapping.  The display-only team and fantasy-team
tags and the minutes field of the source dicts play no role in the search
logic modelled here and are omitted. -/
structure Player where
  name : String
  position : String
  stats : NumStats
deriving DecidableEq

/-- Embeds `RecommendationEngine._calculate_player_value` (src/recommendation.py):
the 9-category value with the engine weights, shooting value relative to
league baselines added only for nonzero stored percentages. -/
def playerValue (p : Player) : ℚ :=
  let pts := dictGetD p.stats "points" 0 * 1.0
  let reb := dictGetD p.stats "rebounds" 0 * 1.3
  let ast := dictGetD p.stats "assists" 0 * 1.5
  let stl := dictGetD p.stats "steals" 0 * 3.5
  let blk := dictGetD p.stats "blocks" 0 * 3.5
  let threes := dictGetD p.stats "three_pointers_made" 0 * 1.5
  let tov := dictGetD p.stats "turnovers" 0 * (-2.0)
  let fg_pct := dictGetD p.stats "fg_percentage" 0
  let fg_value := if fg_pct ≠ 0 then (fg_pct - 0.45) * 100 else 0
  let ft_pct := dictGetD p.stats "ft_percentage" 0
  let ft_value := if ft_pct ≠ 0 then (ft_pct - 0.75) * 80 else 0
  pts + reb + ast + stl + blk + threes + tov + fg_value + ft_value

def guardTags : List String := ["PG", "SG", "G"]

def forwardTags : List String := ["SF", "PF", "F"]

def wingTags : List String := ["SG", "SF", "G", "F"]

def bigTags : List String := ["PF", "C", "F"]

/-- Embeds `RecommendationEngine._check_position_compatibility`
(src/recommendation.py): unknown (empty) tags are always compatible, equal
tags are compatible, and otherwise the tags must share the guard, forward,
wing or big group. -/
def checkPositionCompatibility (pos1 pos2 : String) : Bool :=
  if pos1 = "" ∨ pos2 = "" then true
  else if pos1 = pos2 then true
  else if pos1 ∈ guardTags ∧ pos2 ∈ guardTags then true
  else if pos1 ∈ forwardTags ∧ pos2 ∈ forwardTags then true
  else if pos1 ∈ wingTags ∧ pos2 ∈ wingTags then true
  else if pos1 ∈ bigTags ∧ pos2 ∈ bigTags then true
  else false

/-- The `count_position_types` helper of `_check_multi_position_balance`:
counts of guard, forward and center tags in a position list. -/
def countPositionTypes (positions : List String) : ℕ × ℕ × ℕ :=
  (positions.countP (fun p => decide (p ∈ guardTags)),
   positions.countP (fun p => decide (p ∈ forwardTags)),
   positions.countP (fun p => decide (p = "C")))

/-- Embeds `RecommendationEngine._check_multi_position_balance`
(src/recommendation.py): the dropped and added position-group counts may
differ by at most 1 in each of the guard/forward/center groups. -/
def checkMultiPositionBalance (dropPositions addPositions : List String) : Bool :=
  let dg := (countPositionTypes dropPositions).1
  let df := (countPositionTypes dropPositions).2.1
  let dc := (countPositionTypes dropPositions).2.2
  let ag := (countPositionTypes addPositions).1
  let af := (countPositionTypes addPositions).2.1
  let ac := (countPositionTypes addPositions).2.2
  decide (((dg : ℤ) - ag).natAbs ≤ 1 ∧ ((df : ℤ) - af).natAbs ≤ 1
    ∧ ((dc : ℤ) - ac).natAbs ≤ 1)

/-- Render a rational the way Python renders `round(x, 1)` inside an
f-string: one decimal digit, including the Python negative zero when a
negative value rounds to 0.0. -/
def fmtQ1 (q : ℚ) : String :=
  let r := roundHalfEven (q * 10)
  let core := toString (r.natAbs / 10) ++ "." ++ toString (r.natAbs % 10)
  if r < 0 ∨ (r = 0 ∧ q < 0) then "-" ++ core else core

/-- The dict returned by `_analyze_category_improvements`: the full
9-category delta list, the improvement and decline sub-lists, and their
concatenation.  (For `_compare_stat_totals`, which returns no combined
entry, the field is left empty.) -/
structure CatChanges where
  allCategories : List String
  improvements : List String
  declines : List String
  combined : List String
deriving DecidableEq

/-- The category table of `_analyze_category_improvements`
(src/recommendation.py): stat key, display name, multiplier (present but
unused in the source) and percentage flag. -/
def catKeys : List (String × String × ℚ × Bool) :=
  [("points", "PTS", 1.0, false), ("rebounds", "REB", 1.0, false),
   ("assists", "AST", 1.0, false), ("steals", "STL", 1.0, false),
   ("blocks", "BLK", 1.0, false), ("three_pointers_made", "3PM", 1.0, false),
   ("fg_percentage", "FG%", 100, true), ("ft_percentage", "FT%", 100, true),
   ("turnovers", "TO", 1.0, false)]

/-- One iteration of the category loop of `_analyze_category_improvements`:
turnovers improve when the dropped-player value is higher; every other
category improves when the added-player value is higher; deltas of
magnitude at most 0.01 append the no-change marker; every branch appends
exactly one entry to the all-categories list. -/
def catChangeStep (dropStats addStats : NumStats) (acc : CatChanges)
    (entry : String × String × ℚ × Bool) : CatChanges :=
  let statKey := entry.1
  let statName := entry.2.1
  let isPercentage := entry.2.2.2
  let dropVal := dictGetD dropStats statKey 0
  let addVal := dictGetD addStats statKey 0
  if statKey = "turnovers" then
    let diff := dropVal - addVal
    if 0.01 < |diff| then
      if 0 < diff then
        let s := statName ++ " ↓" ++ fmtQ1 |diff|
        { acc with allCategories := acc.allCategories ++ [s]
                   improvements := acc.improvements ++ [s] }
      else
        let s := statName ++ " ↑" ++ fmtQ1 |diff|
        { acc with allCategories := acc.allCategories ++ [s]
                   declines := acc.declines ++ [s] }
    else { acc with allCategories := acc.allCategories ++ [statName ++ " —"] }
  else
    let diff := addVal - dropVal
    if isPercentage then
      let pctDiff := diff * 100
      if 0.01 < |pctDiff| then
        if 0 < pctDiff then
          let s := statName ++ " +" ++ fmtQ1 pctDiff ++ "%"
          { acc with allCategories := acc.allCategories ++ [s]
                     improvements := acc.improvements ++ [s] }
        else
          let s := statName ++ " " ++ fmtQ1 pctDiff ++ "%"
          { acc with allCategories := acc.allCategories ++ [s]
                     declines := acc.declines ++ [s] }
      else { acc with allCategories := acc.allCategories ++ [statName ++ " —"] }
    else
      if 0.01 < |diff| then
        if 0 < diff then
          let s := statName ++ " +" ++ fmtQ1 diff
          { acc with allCategories := acc.allCategories ++ [s]
                     improvements := acc.improvements ++ [s] }
        else
          let s := statName ++ " " ++ fmtQ1 diff
          { acc with allCategories := acc.allCategories ++ [s]
                     declines := acc.declines ++ [s] }
      else { acc with allCategories := acc.allCategories ++ [statName ++ " —"] }

/-- Embeds `RecommendationEngine._analyze_category_improvements`
(src/recommendation.py). -/
def analyzeCategoryImprovements (dropPlayer addPlayer : Player) : CatChanges :=
  let res := catKeys.foldl (catChangeStep dropPlayer.stats addPlayer.stats) ⟨[], [], [], []⟩
  { res with combined := res.improvements ++ res.declines }

/- ----------------------------------------------------------------
   RecommendationEngine: the four search strategies
   ---------------------------------------------------------------- -/

/-- A RosterMove record: the fields of the recommendation dicts that carry
the search logic.  The free-text reasoning string and the display-only
team/fantasy-team tags of the source dicts are omitted; a dict in which the
all-categories key is absent is modelled with the empty list, matching the
`get` default used wherever the key is read. -/
structure RosterMove where
  rtype : String
  swapType : String
  tradePartner : String
  dropPlayers : List Player
  addPlayers : List Player
  impactScore : ℚ
  allCategories : List String
  improvements : List String
  declines : List String
  priority : String
deriving DecidableEq

/-- The 1-for-1 record built by `_analyze_single_swaps`. -/
def mkSingleSwapRec (rosterPlayer fa : Player) : RosterMove :=
  let improvement := playerValue fa - playerValue rosterPlayer
  let categoryChanges := analyzeCategoryImprovements rosterPlayer fa
  { rtype := "single_swap", swapType := "1-for-1", tradePartner := ""
    dropPlayers := [rosterPlayer], addPlayers := [fa]
    impactScore := round1 improvement
    allCategories := categoryChanges.allCategories
    improvements := categoryChanges.improvements
    declines := categoryChanges.declines
    priority := if 10.0 < improvement then "high" else "medium" }

/-- The free-agent loop of `_analyze_single_swaps`: a free agent with
strictly higher value, compatible position and improvement above 0.5 yields
a record; reaching 60 records aborts the whole search (the Bool flags the
early return). -/
def singleSwapInner (rosterPlayer : Player) :
    List Player → List RosterMove → List RosterMove × Bool
  | [], acc => (acc, false)
  | fa :: fas, acc =>
    if decide (playerValue rosterPlayer < playerValue fa)
        && checkPositionCompatibility rosterPlayer.position fa.position then
      if (0.5 : ℚ) < playerValue fa - playerValue rosterPlayer then
        let acc2 := acc ++ [mkSingleSwapRec rosterPlayer fa]
        if 60 ≤ acc2.length then (acc2, true)
        else singleSwapInner rosterPlayer fas acc2
      else singleSwapInner rosterPlayer fas acc
    else singleSwapInner rosterPlayer fas acc

def singleSwapOuter : List Player → List Player → List RosterMove → List RosterMove
  | [], _, acc => acc
  | rp :: rps, fas, acc =>
    match singleSwapInner rp fas acc with
    | (acc2, true) => acc2
    | (acc2, false) => singleSwapOuter rps fas acc2

/-- Embeds `RecommendationEngine._analyze_single_swaps` (src/recommendation.py):
roster sorted by ascending value, free agents sorted by descending value and
capped at the top 80, then the nested compatibility/improvement scan with
its global cap of 60. -/
def analyzeSingleSwaps (currentRoster freeAgents : List Player) : List RosterMove :=
  let sortedRoster := currentRoster.mergeSort (fun a b => decide (playerValue a ≤ playerValue b))
  let sortedFreeAgents :=
    (freeAgents.mergeSort (fun a b => decide (playerValue b ≤ playerValue a))).take 80
  singleSwapOuter sortedRoster sortedFreeAgents []

/-- Embeds `itertools.combinations`: all strictly increasing index selections of
the given size, in the enumeration order of the Python iterator. -/
def combinations {α : Type} : List α → ℕ → List (List α)
  | _, 0 => [[]]
  | [], _ + 1 => []
  | x :: xs, k + 1 => ((combinations xs k).map (fun c => x :: c)) ++ combinations xs (k + 1)

/-- Python `list(set(...))` over strings: the distinct elements.  CPython
set iteration order is unspecified (string hashing is randomized), so the
first-occurrence order is chosen here; nothing downstream depends on the
order. -/
def dedupKeepFirst (l : List String) : List String := l.eraseDups

/-- The record built by `_analyze_multi_player_swaps` for a qualifying
combination: the improvements/declines are unions of the pairwise per-index
category changes; the combined-changes dict built there has no
all-categories entry, so the `get` with default yields the empty list. -/
def mkMultiSwapRec (swapSize : ℕ) (threshold : ℚ) (dropCombo addCombo : List Player) :
    RosterMove :=
  let valueChange := (addCombo.map playerValue).sum - (dropCombo.map playerValue).sum
  let pairChanges := (dropCombo.zip addCombo).map (fun pr => analyzeCategoryImprovements pr.1 pr.2)
  let allImprovements := (pairChanges.map CatChanges.improvements).flatten
  let allDeclines := (pairChanges.map CatChanges.declines).flatten
  { rtype := "multi_swap"
    swapType := toString swapSize ++ "-for-" ++ toString swapSize
    tradePartner := ""
    dropPlayers := dropCombo, addPlayers := addCombo
    impactScore := round1 valueChange
    allCategories := []
    improvements := (dedupKeepFirst allImprovements).take 5
    declines := (dedupKeepFirst allDeclines).take 3
    priority := if threshold * 2 < valueChange then "high" else "medium" }

/-- The free-agent-combination loop of `_analyze_multi_player_swaps`: the
source computes the position-balance flag of each candidate pair of
combinations, but the qualification test below consults only the value
threshold; reaching 30 records aborts the whole search. -/
def multiSwapInner (swapSize : ℕ) (threshold : ℚ) (dropCombo : List Player) :
    List (List Player) → List RosterMove → List RosterMove × Bool
  | [], acc => (acc, false)
  | addCombo :: rest, acc =>
    let valueChange := (addCombo.map playerValue).sum - (dropCombo.map playerValue).sum
    if threshold < valueChange then
      let acc2 := acc ++ [mkMultiSwapRec swapSize threshold dropCombo addCombo]
      if 30 ≤ acc2.length then (acc2, true)
      else multiSwapInner swapSize threshold dropCombo rest acc2
    else multiSwapInner swapSize threshold dropCombo rest acc

def multiSwapOuter (swapSize : ℕ) (threshold : ℚ) (faCombos : List (List Player)) :
    List (List Player) → List RosterMove → List RosterMove × Bool
  | [], acc => (acc, false)
  | dropCombo :: rest, acc =>
    match multiSwapInner swapSize threshold dropCombo faCombos acc with
    | (acc2, true) => (acc2, true)
    | (acc2, false) => multiSwapOuter swapSize threshold faCombos rest acc2

/-- One swap size of `_analyze_multi_player_swaps`: roster and free-agent
combinations capped (50 for pairs, 30 for triples, free agents capped at the
top-of-list 50 first), threshold 0.5 for pairs and 1.0 for triples. -/
def multiSwapsForSize (currentRoster freeAgents : List Player) (swapSize : ℕ)
    (acc : List RosterMove) : List RosterMove × Bool :=
  let maxCombo := if swapSize = 2 then 50 else if swapSize = 3 then 30 else 10
  let rosterCombos := (combinations currentRoster swapSize).take maxCombo
  let faCombos := (combinations (freeAgents.take 50) swapSize).take maxCombo
  let threshold : ℚ := if swapSize = 2 then 0.5 else if swapSize = 3 then 1.0 else 0.5
  multiSwapOuter swapSize threshold faCombos rosterCombos acc

/-- Embeds `RecommendationEngine._analyze_multi_player_swaps`
(src/recommendation.py): sizes 2 then 3, sharing the accumulated record list
and its early-return cap. -/
def analyzeMultiPlayerSwaps (currentRoster freeAgents : List Player) : List RosterMove :=
  match multiSwapsForSize currentRoster freeAgents 2 [] with
  | (acc, true) => acc
  | (acc, false) => (multiSwapsForSize currentRoster freeAgents 3 acc).1

/-- The value-play record built by `_find_budget_upgrades`; its source dict
has no all-categories entry. -/
def mkBudgetUpgradeRec (rosterPlayer fa : Player) : RosterMove :=
  let improvement := playerValue fa - playerValue rosterPlayer
  let categoryChanges := analyzeCategoryImprovements rosterPlayer fa
  { rtype := "budget_upgrade", swapType := "value-play", tradePartner := ""
    dropPlayers := [rosterPlayer], addPlayers := [fa]
    impactScore := round1 improvement
    allCategories := []
    improvements := categoryChanges.improvements
    declines := categoryChanges.declines
    priority := "high" }

/-- Embeds `RecommendationEngine._find_budget_upgrades` (src/recommendation.py):
every roster/free-agent pair where the free agent is worth more than 1.05
times the roster player and the positions are compatible, truncated to the
first 20. -/
def findBudgetUpgrades (currentRoster freeAgents : List Player) : List RosterMove :=
  (currentRoster.flatMap (fun rp =>
    (freeAgents.filter (fun fa =>
        decide (playerValue rp * 1.05 < playerValue fa)
          && checkPositionCompatibility rp.position fa.position)).map
      (mkBudgetUpgradeRec rp))).take 20

/- ----------------------------------------------------------------
   RecommendationEngine: trade opportunities
   ---------------------------------------------------------------- -/

/-- One opposing team: its display name and roster. -/
structure TeamData where
  teamName : String
  roster : List Player
deriving DecidableEq

/-- The name of the first dropped player of a record, as used by the
per-player cap of `_analyze_trade_opportunities`. -/
def recDropFirstName (r : RosterMove) : String :=
  match r.dropPlayers with
  | p :: _ => p.name
  | [] => ""

/-- The 1-for-1 trade record built by `_analyze_trade_opportunities`. -/
def mkTradeRec (myPlayer otherPlayer : Player) (teamName : String) : RosterMove :=
  let improvement := playerValue otherPlayer - playerValue myPlayer
  let categoryChanges := analyzeCategoryImprovements myPlayer otherPlayer
  { rtype := "trade", swapType := "trade-1-for-1", tradePartner := teamName
    dropPlayers := [myPlayer], addPlayers := [otherPlayer]
    impactScore := round1 improvement
    allCategories := categoryChanges.allCategories
    improvements := categoryChanges.improvements
    declines := categoryChanges.declines
    priority := if 5.0 < improvement then "high" else "medium" }

/-- The opposing-player loop of `_analyze_trade_opportunities`: value ratio
within [1.1, 1.25] (0 when the own value is not positive) and compatible
positions; once the accumulated list holds 3 records dropping this player,
the loop over this team roster stops. -/
def tradeInner (myPlayer : Player) (teamName : String) :
    List Player → List RosterMove → List RosterMove
  | [], acc => acc
  | otherPlayer :: rest, acc =>
    let myValue := playerValue myPlayer
    let otherValue := playerValue otherPlayer
    let valueRatio := if 0 < myValue then otherValue / myValue else 0
    if decide (1.1 ≤ valueRatio ∧ valueRatio ≤ 1.25)
        && checkPositionCompatibility myPlayer.position otherPlayer.position then
      let acc2 := acc ++ [mkTradeRec myPlayer otherPlayer teamName]
      if 3 ≤ (acc2.filter (fun r => decide (recDropFirstName r = myPlayer.name))).length then
        acc2
      else tradeInner myPlayer teamName rest acc2
    else tradeInner myPlayer teamName rest acc

def tradeTeams (myPlayer : Player) : List TeamData → List RosterMove → List RosterMove
  | [], acc => acc
  | td :: rest, acc => tradeTeams myPlayer rest (tradeInner myPlayer td.teamName td.roster acc)

/-- The 1-for-1 part of `_analyze_trade_opportunities`
(src/recommendation.py). -/
def tradeOneForOne (currentRoster : List Player) (otherTeams : List TeamData) :
    List RosterMove :=
  currentRoster.foldl (fun acc myPlayer => tradeTeams myPlayer otherTeams acc) []

/-- Embeds `RecommendationEngine._sum_player_stats` (src/recommendation.py), read
back through the totals dict: the summed value of one stat key over a
player block. -/
def sumPlayerStats (players : List Player) (key : String) : ℚ :=
  (players.map (fun p => dictGetD p.stats key 0)).sum

/-- One iteration of the category loop of `_compare_stat_totals`: same
branch structure as the single-player category loop, on block totals. -/
def compareStep (acc : CatChanges) (entry : String × String × Bool × ℚ × ℚ) : CatChanges :=
  let statKey := entry.1
  let displayName := entry.2.1
  let isPercentage := entry.2.2.1
  let myVal := entry.2.2.2.1
  let otherVal := entry.2.2.2.2
  if statKey = "turnovers" then
    let diff := myVal - otherVal
    if 0.01 < |diff| then
      if 0 < diff then
        let s := displayName ++ " ↓" ++ fmtQ1 |diff|
        { acc with allCategories := acc.allCategories ++ [s]
                   improvements := acc.improvements ++ [s] }
      else
        let s := displayName ++ " ↑" ++ fmtQ1 |diff|
        { acc with allCategories := acc.allCategories ++ [s]
                   declines := acc.declines ++ [s] }
    else { acc with allCategories := acc.allCategories ++ [displayName ++ " —"] }
  else
    let diff := otherVal - myVal
    if isPercentage then
      let pctDiff := diff * 100
      if 0.01 < |pctDiff| then
        if 0 < pctDiff then
          let s := displayName ++ " +" ++ fmtQ1 pctDiff ++ "%"
          { acc with allCategories := acc.allCategories ++ [s]
                     improvements := acc.improvements ++ [s] }
        else
          let s := displayName ++ " " ++ fmtQ1 pctDiff ++ "%"
          { acc with allCategories := acc.allCategories ++ [s]
                     declines := acc.declines ++ [s] }
      else { acc with allCategories := acc.allCategories ++ [displayName ++ " —"] }
    else
      if 0.01 < |diff| then
        if 0 < diff then
          let s := displayName ++ " +" ++ fmtQ1 diff
          { acc with allCategories := acc.allCategories ++ [s]
                     improvements := acc.improvements ++ [s] }
        else
          let s := displayName ++ " " ++ fmtQ1 diff
          { acc with allCategories := acc.allCategories ++ [s]
                     declines := acc.declines ++ [s] }
      else { acc with allCategories := acc.allCategories ++ [displayName ++ " —"] }

/-- Embeds `RecommendationEngine._compare_stat_totals` (src/recommendation.py):
block-total FG% and FT% derived from made/attempted with a zero guard, then
the 9-category comparison; the returned dict has no combined entry. -/
def compareStatTotals (myStats otherStats : String → ℚ) : CatChanges :=
  let myFgPct := if 0 < myStats "field_goal_attempts"
    then myStats "field_goals" / myStats "field_goal_attempts" else 0
  let otherFgPct := if 0 < otherStats "field_goal_attempts"
    then otherStats "field_goals" / otherStats "field_goal_attempts" else 0
  let myFtPct := if 0 < myStats "free_throw_attempts"
    then myStats "free_throws" / myStats "free_throw_attempts" else 0
  let otherFtPct := if 0 < otherStats "free_throw_attempts"
    then otherStats "free_throws" / otherStats "free_throw_attempts" else 0
  let cats : List (String × String × Bool × ℚ × ℚ) :=
    [("points", "PTS", false, myStats "points", otherStats "points"),
     ("rebounds", "REB", false, myStats "rebounds", otherStats "rebounds"),
     ("assists", "AST", false, myStats "assists", otherStats "assists"),
     ("steals", "STL", false, myStats "steals", otherStats "steals"),
     ("blocks", "BLK", false, myStats "blocks", otherStats "blocks"),
     ("three_pointers_made", "3PM", false,
       myStats "three_pointers_made", otherStats "three_pointers_made"),
     ("fg_percentage", "FG%", true, myFgPct, otherFgPct),
     ("ft_percentage", "FT%", true, myFtPct, otherFtPct),
     ("turnovers", "TO", false, myStats "turnovers", otherStats "turnovers")]
  cats.foldl compareStep ⟨[], [], [], []⟩

/-- The 2-for-2 trade record of `_analyze_multi_player_trades`. -/
def mkTrade2Rec (myCombo otherCombo : List Player) (teamName : String) : RosterMove :=
  let improvement := (otherCombo.map playerValue).sum - (myCombo.map playerValue).sum
  let categoryChanges := compareStatTotals (sumPlayerStats myCombo) (sumPlayerStats otherCombo)
  { rtype := "trade", swapType := "trade-2-for-2", tradePartner := teamName
    dropPlayers := myCombo, addPlayers := otherCombo
    impactScore := round1 improvement
    allCategories := categoryChanges.allCategories
    improvements := categoryChanges.improvements
    declines := categoryChanges.declines
    priority := if 10.0 < improvement then "high" else "medium" }

/-- The 3-for-3 trade record of `_analyze_multi_player_trades`. -/
def mkTrade3Rec (myCombo otherCombo : List Player) (teamName : String) : RosterMove :=
  let improvement := (otherCombo.map playerValue).sum - (myCombo.map playerValue).sum
  let categoryChanges := compareStatTotals (sumPlayerStats myCombo) (sumPlayerStats otherCombo)
  { rtype := "trade", swapType := "trade-3-for-3", tradePartner := teamName
    dropPlayers := myCombo, addPlayers := otherCombo
    impactScore := round1 improvement
    allCategories := categoryChanges.allCategories
    improvements := categoryChanges.improvements
    declines := categoryChanges.declines
    priority := if 15.0 < improvement then "high" else "medium" }

/-- The opposing-combination loop of the 2-for-2 trade search: skip when the
own total is 0, accept ratios in [1.1, 1.3], stop this team 2-for-2 scan
at 3 records for this partner. -/
def trade2Inner (myCombo : List Player) (teamName : String) :
    List (List Player) → List RosterMove → List RosterMove
  | [], acc => acc
  | otherCombo :: rest, acc =>
    let myTotal := (myCombo.map playerValue).sum
    let otherTotal := (otherCombo.map playerValue).sum
    if myTotal = 0 then trade2Inner myCombo teamName rest acc
    else
      let valueRatio := otherTotal / myTotal
      if decide (1.1 ≤ valueRatio ∧ valueRatio ≤ 1.3) then
        let acc2 := acc ++ [mkTrade2Rec myCombo otherCombo teamName]
        if 3 ≤ (acc2.filter (fun r =>
            decide (r.tradePartner = teamName ∧ r.swapType = "trade-2-for-2"))).length then
          acc2
        else trade2Inner myCombo teamName rest acc2
      else trade2Inner myCombo teamName rest acc

def trade2Outer (teamName : String) (teamCombos : List (List Player)) :
    List (List Player) → List RosterMove → List RosterMove
  | [], acc => acc
  | myCombo :: rest, acc =>
    trade2Outer teamName teamCombos rest (trade2Inner myCombo teamName teamCombos acc)

/-- The opposing-combination loop of the 3-for-3 trade search: ratios in
[1.15, 1.35], stop this team 3-for-3 scan at 2 records for this
partner. -/
def trade3Inner (myCombo : List Player) (teamName : String) :
    List (List Player) → List RosterMove → List RosterMove
  | [], acc => acc
  | otherCombo :: rest, acc =>
    let myTotal := (myCombo.map playerValue).sum
    let otherTotal := (otherCombo.map playerValue).sum
    if myTotal = 0 then trade3Inner myCombo teamName rest acc
    else
      let valueRatio := otherTotal / myTotal
      if decide (1.15 ≤ valueRatio ∧ valueRatio ≤ 1.35) then
        let acc2 := acc ++ [mkTrade3Rec myCombo otherCombo teamName]
        if 2 ≤ (acc2.filter (fun r =>
            decide (r.tradePartner = teamName ∧ r.swapType = "trade-3-for-3"))).length then
          acc2
        else trade3Inner myCombo teamName rest acc2
      else trade3Inner myCombo teamName rest acc

def trade3Outer (teamName : String) (teamCombos : List (List Player)) :
    List (List Player) → List RosterMove → List RosterMove
  | [], acc => acc
  | myCombo :: rest, acc =>
    trade3Outer teamName teamCombos rest (trade3Inner myCombo teamName teamCombos acc)

/-- The per-team body of `_analyze_multi_player_trades`: teams with fewer
than 2 players are skipped; the 3-for-3 stage runs only when both sides have
at least 3 players, with both combination lists capped at 15. -/
def multiTradeTeam (currentRoster : List Player) (acc : List RosterMove) (td : TeamData) :
    List RosterMove :=
  if td.roster.length < 2 then acc
  else
    let acc2 := trade2Outer td.teamName (combinations td.roster 2)
      (combinations currentRoster 2) acc
    if 3 ≤ currentRoster.length ∧ 3 ≤ td.roster.length then
      trade3Outer td.teamName ((combinations td.roster 3).take 15)
        ((combinations currentRoster 3).take 15) acc2
    else acc2

/-- Embeds `RecommendationEngine._analyze_multi_player_trades`
(src/recommendation.py): per-team 2-for-2 and 3-for-3 scans, sorted by
impact score descending and truncated to 20. -/
def analyzeMultiPlayerTrades (currentRoster : List Player) (otherTeams : List TeamData) :
    List RosterMove :=
  ((otherTeams.foldl (multiTradeTeam currentRoster) []).mergeSort
    (fun a b => decide (b.impactScore ≤ a.impactScore))).take 20

/-- Embeds `RecommendationEngine._analyze_trade_opportunities`
(src/recommendation.py): the first 20 1-for-1 trades, then the multi-player
trades, truncated to 40 in total. -/
def analyzeTradeOpportunities (currentRoster : List Player) (otherTeams : List TeamData) :
    List RosterMove :=
  let oneForOne := (tradeOneForOne currentRoster otherTeams).take 20
  let multiTrades := analyzeMultiPlayerTrades currentRoster otherTeams
  (oneForOne ++ multiTrades).take 40

/- ----------------------------------------------------------------
   RecommendationEngine: merge, dedup, sort, truncate
   ---------------------------------------------------------------- -/

/-- Embeds `RecommendationEngine._get_recommendation_key` (src/recommendation.py):
the identity key of a record — its sorted drop names and sorted add
names. -/
def recommendationKey (r : RosterMove) : List String × List String :=
  ((r.dropPlayers.map Player.name).mergeSort (fun a b => decide (a ≤ b)),
   (r.addPlayers.map Player.name).mergeSort (fun a b => decide (a ≤ b)))

/-- The merge loop of `get_recommendations_for_roster`: keep a record only
when its key has not been seen, remembering seen keys. -/
def dedupAppend : List RosterMove → List (List String × List String) × List RosterMove →
    List (List String × List String) × List RosterMove
  | [], st => st
  | r :: rest, (seen, acc) =>
    if recommendationKey r ∈ seen then dedupAppend rest (seen, acc)
    else dedupAppend rest (seen ++ [recommendationKey r], acc ++ [r])

/-- Embeds `RecommendationEngine.get_recommendations_for_roster`
(src/recommendation.py) for a freshly constructed engine: run the four
strategies in order (trades only when opposing rosters were supplied), merge
their outputs while dropping records whose identity key was already seen,
sort by impact score descending (stable, like the Python sort), and truncate to
the requested maximum.  The all-players argument is accepted but, as in the
source, never consulted on this code path. -/
def get_recommendations_for_roster (currentRoster freeAgents _allPlayers : List Player)
    (maxRecommendations : ℕ) (otherTeams : List TeamData) : List RosterMove :=
  let strategy1 := analyzeSingleSwaps currentRoster freeAgents
  let strategy2 := analyzeMultiPlayerSwaps currentRoster freeAgents
  let strategy3 := findBudgetUpgrades currentRoster freeAgents
  let strategy4 :=
    if otherTeams = [] then [] else analyzeTradeOpportunities currentRoster otherTeams
  let merged := (dedupAppend (strategy1 ++ strategy2 ++ strategy3 ++ strategy4) ([], [])).2
  (merged.mergeSort (fun a b => decide (b.impactScore ≤ a.impactScore))).take maxRecommendations

/- ----------------------------------------------------------------
   C8: merged output has unique keys, descending order, bounded length
   ---------------------------------------------------------------- -/

theorem dedupAppend_nodup_keys (rs : List RosterMove)
    (seen : List (List String × List String)) (acc : List RosterMove)
    (hsub : ∀ r ∈ acc, recommendationKey r ∈ seen)
    (hnd : (acc.map recommendationKey).Nodup) :
    ((dedupAppend rs (seen, acc)).2.map recommendationKey).Nodup := by
  induction rs generalizing seen acc with
  | nil => simpa [dedupAppend] using hnd
  | cons r rest ih =>
    simp only [dedupAppend]
    by_cases hmem : recommendationKey r ∈ seen
    · rw [if_pos hmem]
      exact ih seen acc hsub hnd
    · rw [if_neg hmem]
      refine ih _ _ ?_ ?_
      · intro x hx
        rcases List.mem_append.mp hx with h | h
        · exact List.mem_append_left _ (hsub x h)
        · rw [List.mem_singleton.mp h]
          exact List.mem_append_right _ (List.mem_singleton.mpr rfl)
      · rw [List.map_append, List.map_singleton, List.nodup_append]
        refine ⟨hnd, List.nodup_singleton _, ?_⟩
        intro a ha hb
        rw [List.mem_singleton.mp hb] at ha
        obtain ⟨x, hx, hkey⟩ := List.mem_map.mp ha
        exact hmem (hkey ▸ hsub x hx)

theorem mergeSort_impact_sorted (l : List RosterMove) :
    (l.mergeSort (fun a b => decide (b.impactScore ≤ a.impactScore))).Pairwise
      (fun a b => b.impactScore ≤ a.impactScore) := by
  have h := @List.sorted_mergeSort RosterMove
    (fun a b => decide (b.impactScore ≤ a.impactScore))
    (fun a b c hab hbc => by
      simp only [decide_eq_true_eq] at hab hbc ⊢
      exact le_trans hbc hab)
    (fun a b => by
      simp only [Bool.or_eq_true, decide_eq_true_eq]
      exact le_total _ _)
    l
  exact h.imp (fun hab => by simpa using hab)

theorem dedup_sort_take_props (candidates : List RosterMove) (maxRecommendations : ℕ) :
    ((((dedupAppend candidates ([], [])).2.mergeSort
        (fun a b => decide (b.impactScore ≤ a.impactScore))).take maxRecommendations).map
          recommendationKey).Nodup
  ∧ (((dedupAppend candidates ([], [])).2.mergeSort
        (fun a b => decide (b.impactScore ≤ a.impactScore))).take maxRecommendations).Pairwise
      (fun a b => b.impactScore ≤ a.impactScore)
  ∧ (((dedupAppend candidates ([], [])).2.mergeSort
        (fun a b => decide (b.impactScore ≤ a.impactScore))).take maxRecommendations).length
      ≤ maxRecommendations := by
  have hmerged : ((dedupAppend candidates ([], [])).2.map recommendationKey).Nodup :=
    dedupAppend_nodup_keys candidates [] [] (by simp) (by simp)
  refine ⟨?_, ?_, ?_⟩
  · have hperm : ((dedupAppend candidates ([], [])).2.mergeSort
        (fun a b => decide (b.impactScore ≤ a.impactScore))).map recommendationKey
        |>.Perm ((dedupAppend candidates ([], [])).2.map recommendationKey) :=
      (List.mergeSort_perm _ _).map recommendationKey
    have hnd2 := (hperm.nodup_iff).mpr hmerged
    exact List.Nodup.sublist ((List.take_sublist _ _).map recommendationKey) hnd2
  · exact List.Pairwise.sublist (List.take_sublist _ _) (mergeSort_impact_sorted _)
  · exact List.length_take_le _ _

/-- C8: for every roster, free-agent pool, all-players list, other-team
rosters and requested maximum, the list returned by
`get_recommendations_for_roster` contains no two entries with the same
identity key (sorted drop names, sorted add names), is sorted by impact
score in descending order, and has length at most the requested maximum. -/
theorem c8_unique_keys_sorted_bounded (currentRoster freeAgents allPlayers : List Player)
    (maxRecommendations : ℕ) (otherTeams : List TeamData) :
    ((get_recommendations_for_roster currentRoster freeAgents allPlayers
        maxRecommendations otherTeams).map recommendationKey).Nodup
  ∧ (get_recommendations_for_roster currentRoster freeAgents allPlayers
        maxRecommendations otherTeams).Pairwise
      (fun a b => b.impactScore ≤ a.impactScore)
  ∧ (get_recommendations_for_roster currentRoster freeAgents allPlayers
        maxRecommendations otherTeams).length ≤ maxRecommendations :=
  dedup_sort_take_props
    (analyzeSingleSwaps currentRoster freeAgents
      ++ analyzeMultiPlayerSwaps currentRoster freeAgents
      ++ findBudgetUpgrades currentRoster freeAgents
      ++ (if otherTeams = [] then []
          else analyzeTradeOpportunities currentRoster otherTeams))
    maxRecommendations

/- ----------------------------------------------------------------
   C6 and C7: the multi-player swap search on a concrete input
   ---------------------------------------------------------------- -/

def centerOne : Player := { name := "C1", position := "C", stats := [("points", 1)] }

def centerTwo : Player := { name := "C2", position := "C", stats := [("points", 1)] }

def guardOne : Player := { name := "G1", position := "PG", stats := [("points", 5)] }

def guardTwo : Player := { name := "G2", position := "PG", stats := [("points", 5)] }

theorem playerValue_single_points (nm pos : String) (v : ℚ) :
    playerValue ⟨nm, pos, [("points", v)]⟩ = v := by
  have h1 : dictGetD [("points", v)] "points" 0 = v := rfl
  have h2 : dictGetD [("points", v)] "rebounds" 0 = 0 := rfl
  have h3 : dictGetD [("points", v)] "assists" 0 = 0 := rfl
  have h4 : dictGetD [("points", v)] "steals" 0 = 0 := rfl
  have h5 : dictGetD [("points", v)] "blocks" 0 = 0 := rfl
  have h6 : dictGetD [("points", v)] "three_pointers_made" 0 = 0 := rfl
  have h7 : dictGetD [("points", v)] "turnovers" 0 = 0 := rfl
  have h8 : dictGetD [("points", v)] "fg_percentage" 0 = 0 := rfl
  have h9 : dictGetD [("points", v)] "ft_percentage" 0 = 0 := rfl
  simp only [playerValue]
  rw [h1, h2, h3, h4, h5, h6, h7, h8, h9]
  norm_num

theorem playerValue_centerOne : playerValue centerOne = 1 :=
  playerValue_single_points "C1" "C" 1

theorem playerValue_centerTwo : playerValue centerTwo = 1 :=
  playerValue_single_points "C2" "C" 1

theorem playerValue_guardOne : playerValue guardOne = 5 :=
  playerValue_single_points "G1" "PG" 5

theorem playerValue_guardTwo : playerValue guardTwo = 5 :=
  playerValue_single_points "G2" "PG" 5

/-- Evaluation of the multi-player swap search on the two-centers-out,
two-guards-in input: exactly one 2-for-2 record is emitted. -/
theorem multiSwap_cex_eval :
    analyzeMultiPlayerSwaps [centerOne, centerTwo] [guardOne, guardTwo]
      = [mkMultiSwapRec 2 0.5 [centerOne, centerTwo] [guardOne, guardTwo]] := by
  have hstep2 : multiSwapsForSize [centerOne, centerTwo] [guardOne, guardTwo] 2 []
      = ([mkMultiSwapRec 2 0.5 [centerOne, centerTwo] [guardOne, guardTwo]], false) := by
    show multiSwapOuter 2 0.5 [[guardOne, guardTwo]] [[centerOne, centerTwo]] [] = _
    norm_num [multiSwapOuter, multiSwapInner, playerValue_centerOne, playerValue_centerTwo,
      playerValue_guardOne, playerValue_guardTwo]
  have hstep3 : ∀ acc : List RosterMove,
      multiSwapsForSize [centerOne, centerTwo] [guardOne, guardTwo] 3 acc = (acc, false) :=
    fun acc => rfl
  unfold analyzeMultiPlayerSwaps
  rw [hstep2]
  show (multiSwapsForSize [centerOne, centerTwo] [guardOne, guardTwo] 3
      [mkMultiSwapRec 2 0.5 [centerOne, centerTwo] [guardOne, guardTwo]]).1 = _
  rw [hstep3]

/-- C6: the source computes the position-balance flag of every candidate
multi-player swap, but the qualification test consults only the value
threshold: on the concrete roster of two centers facing two strictly more
valuable point guards, the search emits the 2-for-2 record dropping two
centers for two guards even though the balance predicate rejects exactly
that position change. -/
theorem c6_multi_swap_balance_not_enforced :
    (analyzeMultiPlayerSwaps [centerOne, centerTwo] [guardOne, guardTwo]).map
        (fun r => (r.dropPlayers.map Player.position, r.addPlayers.map Player.position))
      = [(["C", "C"], ["PG", "PG"])]
  ∧ checkMultiPositionBalance ["C", "C"] ["PG", "PG"] = false := by
  rw [multiSwap_cex_eval]
  exact ⟨rfl, by decide⟩

theorem catChangeStep_allCategories_length (ds as : NumStats) (acc : CatChanges)
    (entry : String × String × ℚ × Bool) :
    (catChangeStep ds as acc entry).allCategories.length = acc.allCategories.length + 1 := by
  simp only [catChangeStep]
  split_ifs <;> simp

theorem foldl_catChangeStep_length (ds as : NumStats)
    (entries : List (String × String × ℚ × Bool)) (acc : CatChanges) :
    ((entries.foldl (catChangeStep ds as) acc)).allCategories.length
      = acc.allCategories.length + entries.length := by
  induction entries generalizing acc with
  | nil => simp
  | cons e es ih =>
    rw [List.foldl_cons, ih, catChangeStep_allCategories_length, List.length_cons]
    omega

theorem analyzeCategoryImprovements_allCategories_length (dropPlayer addPlayer : Player) :
    (analyzeCategoryImprovements dropPlayer addPlayer).allCategories.length = 9 := by
  show (catKeys.foldl (catChangeStep dropPlayer.stats addPlayer.stats)
      ⟨[], [], [], []⟩).allCategories.length = 9
  rw [foldl_catChangeStep_length]
  rfl

/-- C7: the per-category delta report is not carried uniformly by every
RosterMove: the single-player comparison always yields one entry per each of
the 9 categories, but a multi-player swap record reads its all-categories
list from a dict that never sets the key, so the concrete 2-for-2 record of
the two-centers-for-two-guards search carries an empty all-categories
list. -/
theorem c7_multi_swap_all_categories_empty :
    (∀ dropPlayer addPlayer : Player,
        (analyzeCategoryImprovements dropPlayer addPlayer).allCategories.length = 9)
  ∧ (analyzeMultiPlayerSwaps [centerOne, centerTwo] [guardOne, guardTwo]).map
        RosterMove.allCategories = [[]] := by
  refine ⟨analyzeCategoryImprovements_allCategories_length, ?_⟩
  rw [multiSwap_cex_eval]
  rfl

/- ----------------------------------------------------------------
   C9: empty stats are replaced by a fabricated default stat line
   ---------------------------------------------------------------- -/

/-- C9 counterexample: a roster holding one player with an empty stats
mapping is not simulated as a no-op — the aggregated team projection records
10 points and a 45% field-goal percentage on 8 estimated attempts, a stat
line invented by the fallback of `_get_sample_player_projections`, and
differs from the projection of the empty roster. -/
theorem c9_counterexample_fabricated_line :
    (getTeamProjections [([] : PStats)]).points = 10
  ∧ (getTeamProjections [([] : PStats)]).fgPct = 0.45
  ∧ getTeamProjections [([] : PStats)] ≠ getTeamProjections [] := by
  have h : getTeamProjections [([] : PStats)]
      = ⟨10, 4, 3, 0.8, 0.5, 1, 0.45, 0.75, 1.5⟩ := by
    norm_num [getTeamProjections, addPlayerToTeam, samplePlayerProjections]
  rw [h, getTeamProjections_nil]
  refine ⟨rfl, rfl, ?_⟩
  simp only [ne_eq, TeamProj.mk.injEq]
  norm_num

/-- C9 amended: the simulator treats an empty roster as a no-op (all-zero
projection), but a player whose stats mapping is empty is neither refused
nor skipped: `_get_sample_player_projections` silently substitutes the fixed
fallback stat line (10 points, 4 rebounds, 3 assists, 0.8 steals, 0.5
blocks, 1 three, 45% FG on 8 estimated attempts, 75% FT on 3 estimated
attempts, 1.5 turnovers), and that fabricated line flows into the simulated
team projection. -/
theorem c9_amended_fallback_behaviour :
    getTeamProjections [] = ⟨0, 0, 0, 0, 0, 0, 0, 0, 0⟩
  ∧ samplePlayerProjections []
      = ⟨10.0, 4.0, 3.0, 0.8, 0.5, 1.0, 0.45, 0.75, 1.5, 8.0, 3.0⟩
  ∧ getTeamProjections [([] : PStats)] = ⟨10, 4, 3, 0.8, 0.5, 1, 0.45, 0.75, 1.5⟩ := by
  refine ⟨getTeamProjections_nil, rfl, ?_⟩
  norm_num [getTeamProjections, addPlayerToTeam, samplePlayerProjections]
